import Mathlib

/-!
Shallow embedding of the PhotoShare image routes
(`src/routes/images.py`) and the rating schema (`src/schemas/rating.py`),
together with models of the repository layer, role service and pydantic
schemas that the routes call. Parts of the repository that are not in the
provided sources (the `src/repository/images.py` functions, the
`src/database/models.py` enums, `src/schemas/images.py`, the role service
and the rating route) are modelled from the specification and carry a
doc comment beginning `Modelled from the spec:`.
-/

/-- Modelled from the spec: the closed set of actor roles
(`src/database/models.py` is not in the provided sources). -/
inductive Role
  | admin
  | moderator
  | regular
deriving DecidableEq, Repr

/-- An authenticated actor: identifier, email, role. -/
structure User where
  id : Nat
  email : String
  role : Role
deriving DecidableEq, Repr

/-- An Image row: identifier, owning actor, durable source URL, description,
tags, creation timestamp. -/
structure Image where
  id : Nat
  user_id : Nat
  link : String
  description : String
  tags : List String
  created_at : Nat
deriving DecidableEq, Repr

/-- A TransformedImage row: identifier, parent Image reference, derived URL. -/
structure TransformedImage where
  id : Nat
  image_id : Nat
  link : String
deriving DecidableEq, Repr

/-- A Rating row: (actor, image) pair and an integer score. -/
structure Rating where
  user_id : Nat
  image_id : Nat
  rating : Int
deriving DecidableEq, Repr

/-- The persisted state visible to the image routes. -/
structure DB where
  images : List Image
  transformed : List TransformedImage
  ratings : List Rating
deriving DecidableEq, Repr

/-- An HTTP error as raised by the routes: status code and detail message. -/
structure HTTPException where
  status_code : Nat
  detail : String
deriving DecidableEq, Repr

/-- Modelled from the spec: the fixed crop-mode enum
(`src/database/models.py` is not in the provided sources). -/
inductive Crop
  | fill
  | fit
  | thumb
  | crop
  | scale
deriving DecidableEq, Repr

/-- The string value of a crop mode, as interpolated into the request. -/
def Crop.value : Crop → String
  | Crop.fill => "fill"
  | Crop.fit => "fit"
  | Crop.thumb => "thumb"
  | Crop.crop => "crop"
  | Crop.scale => "scale"

/-- Modelled from the spec: the fixed enum of supported artistic filters
(`src/database/models.py` is not in the provided sources). -/
inductive Effect
  | alDente
  | athena
  | audrey
  | sepia
  | zorro
deriving DecidableEq, Repr

/-- The string value of an effect, as interpolated into the request. -/
def Effect.value : Effect → String
  | Effect.alDente => "al_dente"
  | Effect.athena => "athena"
  | Effect.audrey => "audrey"
  | Effect.sepia => "sepia"
  | Effect.zorro => "zorro"

/-- Modelled from the spec: the fixed sort-key enum
(`src/database/models.py` is not in the provided sources). -/
inductive SortBy
  | rating
  | date
deriving DecidableEq, Repr

/-- The transformation descriptor sent to the external service, mirroring the
`transformation=` dictionaries built in `crop_image` and `use_effect`. -/
inductive Transformation
  | crop (cropMode : String) (width : String) (height : String)
  | effect (name : String)
deriving DecidableEq, Repr

/-- What is sent as the first argument of `cloudinary.uploader.upload`:
raw file bytes on upload, a source URL on transformation. -/
inductive UploadSource
  | bytes (content : List UInt8)
  | url (link : String)
deriving DecidableEq, Repr

/-- One call to the external transformation/storage collaborator
(`cloudinary.uploader.upload`). -/
structure UploadReq where
  source : UploadSource
  public_id : String
  transformation : Option Transformation
deriving DecidableEq, Repr

/-- Result of running a route handler: the response or error, the resulting
persisted state, and the list of external calls made, in order. -/
structure RouteResult (α : Type) where
  result : Except HTTPException α
  db : DB
  calls : List UploadReq
deriving Repr

/-- Modelled from the spec: `ImageSchema` from `src/schemas/images.py`
(not in the provided sources) — the upload metadata. -/
structure ImageSchema where
  description : String
  tags : List String
deriving DecidableEq, Repr

/-- Modelled from the spec: `UpdateImageSchema` from `src/schemas/images.py`
(not in the provided sources) — the crop size parameters. -/
structure UpdateImageSchema where
  width : Int
  height : Int
deriving DecidableEq, Repr

/-- Modelled from the spec: the schema-level validation of the crop size —
width and height must be positive integers. -/
def UpdateImageSchema.isValid (s : UpdateImageSchema) : Bool :=
  decide (0 < s.width) && decide (0 < s.height)

/-- The next free Image identifier. -/
def nextImageId (db : DB) : Nat :=
  (db.images.map Image.id).foldl Nat.max 0 + 1

/-- The next free TransformedImage identifier. -/
def nextTransformedId (db : DB) : Nat :=
  (db.transformed.map TransformedImage.id).foldl Nat.max 0 + 1

/-- Modelled from the spec: the read-class access policy — an actor may read
an Image iff it is admin, or moderator, or the Image's owner. -/
def canRead (u : User) (img : Image) : Bool :=
  decide (u.role = Role.admin) || decide (u.role = Role.moderator) ||
    decide (img.user_id = u.id)

namespace repository_images

/-- Modelled from the spec: `repository.images.create_image` — persists a new
Image owned by the actor with the given URL and metadata. -/
def create_image (db : DB) (link : String) (body : ImageSchema)
    (current_user : User) (now : Nat) : DB × Image :=
  let img : Image :=
    ⟨nextImageId db, current_user.id, link, body.description, body.tags, now⟩
  (⟨db.images ++ [img], db.transformed, db.ratings⟩, img)

/-- Modelled from the spec: `repository.images.get_image_db` — returns the
Image with the given id if it exists and the actor may read it, else `none`
(absent and inaccessible are not distinguished). -/
def get_image_db (db : DB) (image_id : Nat) (current_user : User) :
    Option Image :=
  match db.images.find? (fun img => img.id == image_id) with
  | none => none
  | some img => if canRead current_user img then some img else none

/-- Modelled from the spec: `repository.images.save_transformed_image` —
appends a new TransformedImage row linked to the parent Image. -/
def save_transformed_image (db : DB) (link : String) (image_id : Nat) :
    DB × TransformedImage :=
  let t : TransformedImage := ⟨nextTransformedId db, image_id, link⟩
  (⟨db.images, db.transformed ++ [t], db.ratings⟩, t)

/-- Modelled from the spec: `repository.images.get_transformed_image_db` —
looks up a TransformedImage by identifier; no actor is consulted. -/
def get_transformed_image_db (db : DB) (image_id : Nat) :
    Option TransformedImage :=
  db.transformed.find? (fun t => t.id == image_id)

/-- Modelled from the spec: `repository.images.generate_qrcode_by_image` —
a deterministic QR payload derived from the URL alone. -/
def generate_qrcode_by_image (link : String) : String :=
  "QR:" ++ link

/-- Whether the pattern list occurs contiguously inside the other list;
used to model Python substring matching. -/
def listHasSub (l pat : List Char) : Bool :=
  match l with
  | [] => pat.isEmpty
  | _ :: t => pat.isPrefixOf l || listHasSub t pat

/-- Modelled from the spec: whether an image matches a search query —
the query is a substring of the description, or one of the tags. -/
def matchesQuery (query : String) (img : Image) : Bool :=
  listHasSub img.description.toList query.toList || img.tags.contains query

/-- Modelled from the spec:
`repository.images.search_images_by_description_or_tag` — all images whose
description or tags match the query. -/
def search_images_by_description_or_tag (image_query : String) (db : DB) :
    List Image :=
  db.images.filter (matchesQuery image_query)

/-- The sort key for a given `SortBy`: the image's aggregate rating score,
or its creation timestamp. -/
def sortKey (db : DB) : SortBy → Image → Int
  | SortBy.rating, img =>
      ((db.ratings.filter (fun r => r.image_id == img.id)).map Rating.rating).foldl
        (fun a b => a + b) 0
  | SortBy.date, img => Int.ofNat img.created_at

/-- Modelled from the spec: `repository.images.sorter` — a stable sort of the
images by the selected key, descending when the flag is set (equal keys
preserve their prior relative order). -/
def sorter (db : DB) (images : List Image) (order_by : SortBy)
    (descending : Bool) : List Image :=
  let key := sortKey db order_by
  if descending then
    List.insertionSort (fun a b => key b ≤ key a) images
  else
    List.insertionSort (fun a b => key a ≤ key b) images

/-- Modelled from the spec: `repository.images.get_images_by_user_id` —
all Images owned by the target user. -/
def get_images_by_user_id (db : DB) (user_id : Nat) : List Image :=
  db.images.filter (fun img => img.user_id == user_id)

end repository_images

/-- Modelled from the spec: `services.roles.RoleAccess` — the list of roles
allowed through the gate. -/
structure RoleAccess where
  allowed_roles : List Role

/-- Modelled from the spec: calling a `RoleAccess` dependency raises
`Forbidden` (403) when the current user's role is not in the allowed list. -/
def RoleAccess.call (ra : RoleAccess) (user : User) : Except HTTPException Unit :=
  if ra.allowed_roles.contains user.role then Except.ok ()
  else Except.error ⟨403, "FORBIDDEN"⟩

/-- `upload_image` from `src/routes/images.py`: rejects a payload over
5 MiB with a 400 before any external call; otherwise uploads the bytes under
a generated public id, takes the secure URL, and persists a new Image.
`ext` is the external collaborator, `rand` the drawn random integer,
`now` the creation timestamp recorded by the persistence layer. -/
def upload_image (ext : UploadReq → String) (file_content : List UInt8)
    (body : ImageSchema) (db : DB) (current_user : User) (rand : Nat)
    (now : Nat) : RouteResult Image :=
  let max_size := 5 * 1024 * 1024
  let file_size := file_content.length
  if max_size < file_size then
    ⟨Except.error ⟨400, "File size exceeds 5MB"⟩, db, []⟩
  else
    let public_id := "PhotoShare/" ++ current_user.email ++ "_" ++ toString rand
    let req : UploadReq := ⟨UploadSource.bytes file_content, public_id, none⟩
    let link := ext req
    let created := repository_images.create_image db link body current_user now
    ⟨Except.ok created.2, created.1, [req]⟩

/-- `get_image` from `src/routes/images.py`: looks the image up through the
repository (which also enforces read access) and raises a 404 on `none`. -/
def get_image (db : DB) (image_id : Nat) (current_user : User) :
    RouteResult Image :=
  match repository_images.get_image_db db image_id current_user with
  | none => ⟨Except.error ⟨404, "Image not found"⟩, db, []⟩
  | some image => ⟨Except.ok image, db, []⟩

/-- `crop_image` from `src/routes/images.py` (the handler body): resolves the
image through the access-checking repository lookup, then sends the image's
current URL with the crop descriptor to the external service and persists the
returned URL as a new TransformedImage row. -/
def crop_image (ext : UploadReq → String) (db : DB) (image_id : Nat)
    (size : UpdateImageSchema) (crop : Crop) (current_user : User)
    (rand : Nat) : RouteResult TransformedImage :=
  match repository_images.get_image_db db image_id current_user with
  | none => ⟨Except.error ⟨404, "Image not found"⟩, db, []⟩
  | some image =>
    let public_id :=
      "PhotoShare(transformed)/" ++ current_user.email ++ "_" ++ toString rand
    let req : UploadReq :=
      ⟨UploadSource.url image.link, public_id,
        some (Transformation.crop crop.value (toString size.width)
          (toString size.height))⟩
    let link := ext req
    let saved := repository_images.save_transformed_image db link image_id
    ⟨Except.ok saved.2, saved.1, [req]⟩

/-- The crop endpoint including the request-parsing stage: the schema
validation of `UpdateImageSchema` (width and height positive — modelled from
the spec, `src/schemas/images.py` is not in the provided sources) runs before
the handler body, so an invalid size is rejected with a 422 validation error
before anything else happens. The crop mode is enum-typed, so membership in
the fixed enum is enforced by parsing as well. -/
def crop_endpoint (ext : UploadReq → String) (db : DB) (image_id : Nat)
    (size : UpdateImageSchema) (crop : Crop) (current_user : User)
    (rand : Nat) : RouteResult TransformedImage :=
  if size.isValid then crop_image ext db image_id size crop current_user rand
  else ⟨Except.error ⟨422, "Input should be a positive integer"⟩, db, []⟩

/-- `use_effect` from `src/routes/images.py`: resolves the image through the
access-checking repository lookup, then sends the image's current URL with
the effect descriptor to the external service and persists the returned URL
as a new TransformedImage row. -/
def use_effect (ext : UploadReq → String) (db : DB) (image_id : Nat)
    (e : Effect) (current_user : User) (rand : Nat) :
    RouteResult TransformedImage :=
  match repository_images.get_image_db db image_id current_user with
  | none => ⟨Except.error ⟨404, "Image not found"⟩, db, []⟩
  | some image =>
    let public_id :=
      "PhotoShare(transformed)/" ++ current_user.email ++ "_" ++ toString rand
    let req : UploadReq :=
      ⟨UploadSource.url image.link, public_id,
        some (Transformation.effect ("art:" ++ e.value))⟩
    let link := ext req
    let saved := repository_images.save_transformed_image db link image_id
    ⟨Except.ok saved.2, saved.1, [req]⟩

/-- `generate_qrcode` from `src/routes/images.py`: resolves the
TransformedImage by id only — the authenticated user is a parameter of the
route but is never consulted — and emits the QR payload of its URL. -/
def generate_qrcode (db : DB) (image_id : Nat) (current_user : User) :
    RouteResult String :=
  match repository_images.get_transformed_image_db db image_id with
  | none => ⟨Except.error ⟨404, "Image not found"⟩, db, []⟩
  | some image =>
    ⟨Except.ok (repository_images.generate_qrcode_by_image image.link), db, []⟩

/-- `search_images` from `src/routes/images.py`, including the
`Path(..., min_length=2)` parsing stage: a query shorter than 2 characters is
rejected with a 422 validation error; an empty result set raises a 404;
otherwise the matches are returned sorted. -/
def search_images (db : DB) (order_by : SortBy) (descending : Bool)
    (image_query : String) (current_user : User) : RouteResult (List Image) :=
  if image_query.length < 2 then
    ⟨Except.error ⟨422, "String should have at least 2 characters"⟩, db, []⟩
  else
    let image_by_description :=
      repository_images.search_images_by_description_or_tag image_query db
    if image_by_description.length == 0 then
      ⟨Except.error ⟨404, "Images with this query not found"⟩, db, []⟩
    else
      ⟨Except.ok (repository_images.sorter db image_by_description order_by descending),
        db, []⟩

/-- `get_images_by_user_id` from `src/routes/images.py`: gates on the role
list `[admin, moderator]` via `RoleAccess`, then returns all Images owned by
the target user. -/
def get_images_by_user_id_route (db : DB) (user_id : Nat)
    (current_user : User) : RouteResult (List Image) :=
  match RoleAccess.call ⟨[Role.admin, Role.moderator]⟩ current_user with
  | Except.error e => ⟨Except.error e, db, []⟩
  | Except.ok _ =>
    ⟨Except.ok (repository_images.get_images_by_user_id db user_id), db, []⟩

/-- `RatingSchema` from `src/schemas/rating.py`: an image id and an integer
score; the schema itself constrains the score only to be an integer. -/
structure RatingSchema where
  image_id : Nat
  rating : Int
deriving DecidableEq, Repr

/-- Modelled from the spec: the fixed permitted rating range (the spec fixes
a range without naming its bounds; 1–5 is used as the concrete model). -/
def ratingMin : Int := 1

/-- Modelled from the spec: upper bound of the fixed permitted rating range. -/
def ratingMax : Int := 5

/-- Modelled from the spec: the rating-submission boundary (the ratings route
is not in the provided sources) — the score is validated against the fixed
range and an out-of-range score is rejected; an accepted submission persists
the (actor, image, score) row. -/
def create_rating (body : RatingSchema) (current_user : User) :
    Except HTTPException Rating :=
  if body.rating < ratingMin || ratingMax < body.rating then
    Except.error ⟨400, "Rating must be between 1 and 5"⟩
  else
    Except.ok ⟨current_user.id, body.image_id, body.rating⟩

/-- If no image in the store both bears the requested id and is readable by
the actor, the access-checking lookup returns `none`. -/
theorem get_image_db_none_of_denied (db : DB) (image_id : Nat) (u : User)
    (h : ∀ img ∈ db.images, img.id = image_id → canRead u img = false) :
    repository_images.get_image_db db image_id u = none := by
  unfold repository_images.get_image_db
  cases hf : db.images.find? (fun img => img.id == image_id) with
  | none => rfl
  | some img =>
    have hmem := List.mem_of_find?_eq_some hf
    have hp := List.find?_some hf
    simp only [beq_iff_eq] at hp
    simp [h img hmem hp]

/-- Claim C2: an upload whose payload exceeds 5 MiB fails with the 400
"File size exceeds 5MB" error, makes no external call and leaves the state
unchanged; a payload of at most 5 MiB passes the size check, makes exactly
the one external store call carrying the bytes, and persists the new Image. -/
theorem upload_size_gate (ext : UploadReq → String) (file_content : List UInt8)
    (body : ImageSchema) (db : DB) (current_user : User) (rand now : Nat) :
    (5 * 1024 * 1024 < file_content.length →
      (upload_image ext file_content body db current_user rand now).result
          = Except.error ⟨400, "File size exceeds 5MB"⟩ ∧
        (upload_image ext file_content body db current_user rand now).calls = [] ∧
        (upload_image ext file_content body db current_user rand now).db = db) ∧
    (file_content.length ≤ 5 * 1024 * 1024 →
      (upload_image ext file_content body db current_user rand now).calls
          = [⟨UploadSource.bytes file_content,
              "PhotoShare/" ++ current_user.email ++ "_" ++ toString rand, none⟩] ∧
        (upload_image ext file_content body db current_user rand now).db
          = (repository_images.create_image db
              (ext ⟨UploadSource.bytes file_content,
                "PhotoShare/" ++ current_user.email ++ "_" ++ toString rand, none⟩)
              body current_user now).1 ∧
        (upload_image ext file_content body db current_user rand now).result
          = Except.ok (repository_images.create_image db
              (ext ⟨UploadSource.bytes file_content,
                "PhotoShare/" ++ current_user.email ++ "_" ++ toString rand, none⟩)
              body current_user now).2) := by
  constructor
  · intro h
    simp [upload_image, h]
  · intro h
    simp [upload_image, Nat.not_lt.mpr h]

/-- Claim C2 witness: a payload of 5 MiB + 1 byte is rejected with no external
call and no state change; an empty payload passes the gate, is sent to the
external store and persisted. -/
theorem upload_size_gate_witness :
    ((upload_image (fun _ => "https://u.example/a")
        (List.replicate (5 * 1024 * 1024 + 1) (0 : UInt8)) ⟨"d", []⟩ ⟨[], [], []⟩
        ⟨1, "a@b", Role.regular⟩ 7 3).result
        = Except.error ⟨400, "File size exceeds 5MB"⟩ ∧
      (upload_image (fun _ => "https://u.example/a")
        (List.replicate (5 * 1024 * 1024 + 1) (0 : UInt8)) ⟨"d", []⟩ ⟨[], [], []⟩
        ⟨1, "a@b", Role.regular⟩ 7 3).calls = [] ∧
      (upload_image (fun _ => "https://u.example/a")
        (List.replicate (5 * 1024 * 1024 + 1) (0 : UInt8)) ⟨"d", []⟩ ⟨[], [], []⟩
        ⟨1, "a@b", Role.regular⟩ 7 3).db = ⟨[], [], []⟩) ∧
    ((upload_image (fun _ => "https://u.example/a") [] ⟨"d", []⟩ ⟨[], [], []⟩
        ⟨1, "a@b", Role.regular⟩ 7 3).calls
        = [⟨UploadSource.bytes [],
            "PhotoShare/" ++ (User.mk 1 "a@b" Role.regular).email ++ "_" ++ toString 7,
            none⟩] ∧
      (upload_image (fun _ => "https://u.example/a") [] ⟨"d", []⟩ ⟨[], [], []⟩
        ⟨1, "a@b", Role.regular⟩ 7 3).db
        = (repository_images.create_image ⟨[], [], []⟩
            ((fun _ => "https://u.example/a")
              (UploadReq.mk (UploadSource.bytes [])
                ("PhotoShare/" ++ (User.mk 1 "a@b" Role.regular).email ++ "_" ++ toString 7)
                none))
            ⟨"d", []⟩ ⟨1, "a@b", Role.regular⟩ 3).1 ∧
      (upload_image (fun _ => "https://u.example/a") [] ⟨"d", []⟩ ⟨[], [], []⟩
        ⟨1, "a@b", Role.regular⟩ 7 3).result
        = Except.ok (repository_images.create_image ⟨[], [], []⟩
            ((fun _ => "https://u.example/a")
              (UploadReq.mk (UploadSource.bytes [])
                ("PhotoShare/" ++ (User.mk 1 "a@b" Role.regular).email ++ "_" ++ toString 7)
                none))
            ⟨"d", []⟩ ⟨1, "a@b", Role.regular⟩ 3).2) :=
  ⟨(upload_size_gate (fun _ => "https://u.example/a")
      (List.replicate (5 * 1024 * 1024 + 1) (0 : UInt8)) ⟨"d", []⟩ ⟨[], [], []⟩
      ⟨1, "a@b", Role.regular⟩ 7 3).1
      (by rw [List.length_replicate]; omega),
   (upload_size_gate (fun _ => "https://u.example/a") [] ⟨"d", []⟩ ⟨[], [], []⟩
      ⟨1, "a@b", Role.regular⟩ 7 3).2
      (by simp)⟩

/-- Claim C3: the QR-code endpoint never consults the authenticated user —
for every state, every image id and any two actors, the whole route outcome
(response, state, external calls) is identical for both actors. -/
theorem generate_qrcode_actor_independent (db : DB) (image_id : Nat)
    (u1 u2 : User) :
    generate_qrcode db image_id u1 = generate_qrcode db image_id u2 := rfl

/-- Claim C4: the single-image read returns the same 404 "Image not found"
result both when no image with the id exists and when such an image exists
but the actor may not read it — the two failures are indistinguishable. -/
theorem get_image_notfound_merged (db : DB) (image_id : Nat) (u : User) :
    (db.images.find? (fun img => img.id == image_id) = none →
      get_image db image_id u
        = ⟨Except.error ⟨404, "Image not found"⟩, db, []⟩) ∧
    (∀ img, db.images.find? (fun i => i.id == image_id) = some img →
      canRead u img = false →
      get_image db image_id u
        = ⟨Except.error ⟨404, "Image not found"⟩, db, []⟩) := by
  constructor
  · intro h
    simp [get_image, repository_images.get_image_db, h]
  · intro img hf hc
    simp [get_image, repository_images.get_image_db, hf, hc]

/-- Claim C4 witness: on a store holding only an image owned by user 2, a
regular actor with id 1 gets the identical 404 both for the missing id 9 and
for the existing but inaccessible id 5. -/
theorem get_image_notfound_merged_witness :
    ((DB.mk [⟨5, 2, "http://x", "d", [], 0⟩] [] []).images.find?
        (fun img => img.id == 9) = none →
      get_image ⟨[⟨5, 2, "http://x", "d", [], 0⟩], [], []⟩ 9 ⟨1, "a@b", Role.regular⟩
        = ⟨Except.error ⟨404, "Image not found"⟩,
            ⟨[⟨5, 2, "http://x", "d", [], 0⟩], [], []⟩, []⟩) ∧
    (get_image ⟨[⟨5, 2, "http://x", "d", [], 0⟩], [], []⟩ 5 ⟨1, "a@b", Role.regular⟩
        = ⟨Except.error ⟨404, "Image not found"⟩,
            ⟨[⟨5, 2, "http://x", "d", [], 0⟩], [], []⟩, []⟩) :=
  ⟨fun h => (get_image_notfound_merged
      ⟨[⟨5, 2, "http://x", "d", [], 0⟩], [], []⟩ 9 ⟨1, "a@b", Role.regular⟩).1 h,
   (get_image_notfound_merged
      ⟨[⟨5, 2, "http://x", "d", [], 0⟩], [], []⟩ 5 ⟨1, "a@b", Role.regular⟩).2
      ⟨5, 2, "http://x", "d", [], 0⟩ (by decide) (by decide)⟩

/-- Claim C1: a crop or effect request on an image the actor may not access
(or that does not exist) fails with the 404 strictly before the external
transformation service is called: no external call is made and the persisted
state — in particular the TransformedImage table — is unchanged. -/
theorem denied_transform_no_side_effects (ext : UploadReq → String) (db : DB)
    (image_id : Nat) (size : UpdateImageSchema) (c : Crop) (e : Effect)
    (u : User) (rand : Nat)
    (h : ∀ img ∈ db.images, img.id = image_id → canRead u img = false) :
    (crop_image ext db image_id size c u rand).result
        = Except.error ⟨404, "Image not found"⟩ ∧
      (crop_image ext db image_id size c u rand).db = db ∧
      (crop_image ext db image_id size c u rand).calls = [] ∧
      (use_effect ext db image_id e u rand).result
        = Except.error ⟨404, "Image not found"⟩ ∧
      (use_effect ext db image_id e u rand).db = db ∧
      (use_effect ext db image_id e u rand).calls = [] := by
  have hn := get_image_db_none_of_denied db image_id u h
  simp [crop_image, use_effect, hn]

/-- Claim C1 witness: a regular actor with id 1 asking to crop or restyle the
image with id 5 owned by user 2 is denied, with no external call and the
state unchanged. -/
theorem denied_transform_no_side_effects_witness :
    (crop_image (fun _ => "https://u.example/t")
        ⟨[⟨5, 2, "http://x", "d", [], 0⟩], [], []⟩ 5 ⟨10, 10⟩ Crop.fill
        ⟨1, "a@b", Role.regular⟩ 7).result
        = Except.error ⟨404, "Image not found"⟩ ∧
      (crop_image (fun _ => "https://u.example/t")
        ⟨[⟨5, 2, "http://x", "d", [], 0⟩], [], []⟩ 5 ⟨10, 10⟩ Crop.fill
        ⟨1, "a@b", Role.regular⟩ 7).db = ⟨[⟨5, 2, "http://x", "d", [], 0⟩], [], []⟩ ∧
      (crop_image (fun _ => "https://u.example/t")
        ⟨[⟨5, 2, "http://x", "d", [], 0⟩], [], []⟩ 5 ⟨10, 10⟩ Crop.fill
        ⟨1, "a@b", Role.regular⟩ 7).calls = [] ∧
      (use_effect (fun _ => "https://u.example/t")
        ⟨[⟨5, 2, "http://x", "d", [], 0⟩], [], []⟩ 5 Effect.sepia
        ⟨1, "a@b", Role.regular⟩ 7).result
        = Except.error ⟨404, "Image not found"⟩ ∧
      (use_effect (fun _ => "https://u.example/t")
        ⟨[⟨5, 2, "http://x", "d", [], 0⟩], [], []⟩ 5 Effect.sepia
        ⟨1, "a@b", Role.regular⟩ 7).db = ⟨[⟨5, 2, "http://x", "d", [], 0⟩], [], []⟩ ∧
      (use_effect (fun _ => "https://u.example/t")
        ⟨[⟨5, 2, "http://x", "d", [], 0⟩], [], []⟩ 5 Effect.sepia
        ⟨1, "a@b", Role.regular⟩ 7).calls = [] :=
  denied_transform_no_side_effects (fun _ => "https://u.example/t")
    ⟨[⟨5, 2, "http://x", "d", [], 0⟩], [], []⟩ 5 ⟨10, 10⟩ Crop.fill Effect.sepia
    ⟨1, "a@b", Role.regular⟩ 7 (by decide)

/-- Claim C5: the crop parameters are validated before anything reaches the
external service — a crop request whose width or height is not positive is
rejected at the parsing stage with a 422 validation error, makes no external
call and leaves the state unchanged (the crop mode is a member of the fixed
enum by construction of the `Crop` type). -/
theorem crop_invalid_size_rejected (ext : UploadReq → String) (db : DB)
    (image_id : Nat) (size : UpdateImageSchema) (c : Crop) (u : User)
    (rand : Nat) (h : size.width ≤ 0 ∨ size.height ≤ 0) :
    (crop_endpoint ext db image_id size c u rand).result
        = Except.error ⟨422, "Input should be a positive integer"⟩ ∧
      (crop_endpoint ext db image_id size c u rand).calls = [] ∧
      (crop_endpoint ext db image_id size c u rand).db = db := by
  have hv : size.isValid = false := by
    unfold UpdateImageSchema.isValid
    rcases h with h | h <;> simp [Int.not_lt.mpr h]
  simp [crop_endpoint, hv]

/-- Claim C5 witness: a crop request with width 0 is rejected with the 422
error, no external call and no state change. -/
theorem crop_invalid_size_rejected_witness :
    (crop_endpoint (fun _ => "https://u.example/t")
        ⟨[⟨5, 1, "http://x", "d", [], 0⟩], [], []⟩ 5 ⟨0, 8⟩ Crop.fill
        ⟨1, "a@b", Role.regular⟩ 7).result
        = Except.error ⟨422, "Input should be a positive integer"⟩ ∧
      (crop_endpoint (fun _ => "https://u.example/t")
        ⟨[⟨5, 1, "http://x", "d", [], 0⟩], [], []⟩ 5 ⟨0, 8⟩ Crop.fill
        ⟨1, "a@b", Role.regular⟩ 7).calls = [] ∧
      (crop_endpoint (fun _ => "https://u.example/t")
        ⟨[⟨5, 1, "http://x", "d", [], 0⟩], [], []⟩ 5 ⟨0, 8⟩ Crop.fill
        ⟨1, "a@b", Role.regular⟩ 7).db = ⟨[⟨5, 1, "http://x", "d", [], 0⟩], [], []⟩ :=
  crop_invalid_size_rejected (fun _ => "https://u.example/t")
    ⟨[⟨5, 1, "http://x", "d", [], 0⟩], [], []⟩ 5 ⟨0, 8⟩ Crop.fill
    ⟨1, "a@b", Role.regular⟩ 7 (Or.inl (by decide))

/-- Claim C8: a successful crop or effect sends the parent Image's current
source URL together with the transformation descriptor to the external
service, persists the returned derived URL as a new TransformedImage row
linked to the parent image, and leaves the Image table — hence the parent
Image's URL and every other field — and the ratings unchanged. -/
theorem transform_success_frame (ext : UploadReq → String) (db : DB)
    (image_id : Nat) (size : UpdateImageSchema) (c : Crop) (e : Effect)
    (u : User) (rand : Nat) (img : Image)
    (h : repository_images.get_image_db db image_id u = some img) :
    (crop_image ext db image_id size c u rand).calls
        = [⟨UploadSource.url img.link,
            "PhotoShare(transformed)/" ++ u.email ++ "_" ++ toString rand,
            some (Transformation.crop c.value (toString size.width)
              (toString size.height))⟩] ∧
      (crop_image ext db image_id size c u rand).db.images = db.images ∧
      (crop_image ext db image_id size c u rand).db.ratings = db.ratings ∧
      (crop_image ext db image_id size c u rand).db.transformed
        = db.transformed ++
            [⟨nextTransformedId db, image_id,
              ext ⟨UploadSource.url img.link,
                "PhotoShare(transformed)/" ++ u.email ++ "_" ++ toString rand,
                some (Transformation.crop c.value (toString size.width)
                  (toString size.height))⟩⟩] ∧
      (use_effect ext db image_id e u rand).calls
        = [⟨UploadSource.url img.link,
            "PhotoShare(transformed)/" ++ u.email ++ "_" ++ toString rand,
            some (Transformation.effect ("art:" ++ e.value))⟩] ∧
      (use_effect ext db image_id e u rand).db.images = db.images ∧
      (use_effect ext db image_id e u rand).db.ratings = db.ratings ∧
      (use_effect ext db image_id e u rand).db.transformed
        = db.transformed ++
            [⟨nextTransformedId db, image_id,
              ext ⟨UploadSource.url img.link,
                "PhotoShare(transformed)/" ++ u.email ++ "_" ++ toString rand,
                some (Transformation.effect ("art:" ++ e.value))⟩⟩] := by
  simp [crop_image, use_effect, repository_images.save_transformed_image, h]

/-- Claim C8 witness: the owner crops and restyles their own image with id 5;
the external call carries the parent's URL and the descriptor, and the
returned URL is appended as a TransformedImage row with parent 5 while the
Image table is untouched. -/
theorem transform_success_frame_witness :
    (crop_image (fun _ => "https://u.example/t")
        ⟨[⟨5, 1, "http://x", "d", [], 0⟩], [], []⟩ 5 ⟨10, 20⟩ Crop.fill
        ⟨1, "a@b", Role.regular⟩ 7).calls
        = [⟨UploadSource.url (Image.mk 5 1 "http://x" "d" [] 0).link,
            "PhotoShare(transformed)/" ++ (User.mk 1 "a@b" Role.regular).email
              ++ "_" ++ toString 7,
            some (Transformation.crop Crop.fill.value
              (toString (UpdateImageSchema.mk 10 20).width)
              (toString (UpdateImageSchema.mk 10 20).height))⟩] ∧
      (crop_image (fun _ => "https://u.example/t")
        ⟨[⟨5, 1, "http://x", "d", [], 0⟩], [], []⟩ 5 ⟨10, 20⟩ Crop.fill
        ⟨1, "a@b", Role.regular⟩ 7).db.images
        = (DB.mk [⟨5, 1, "http://x", "d", [], 0⟩] [] []).images ∧
      (crop_image (fun _ => "https://u.example/t")
        ⟨[⟨5, 1, "http://x", "d", [], 0⟩], [], []⟩ 5 ⟨10, 20⟩ Crop.fill
        ⟨1, "a@b", Role.regular⟩ 7).db.ratings
        = (DB.mk [⟨5, 1, "http://x", "d", [], 0⟩] [] []).ratings ∧
      (crop_image (fun _ => "https://u.example/t")
        ⟨[⟨5, 1, "http://x", "d", [], 0⟩], [], []⟩ 5 ⟨10, 20⟩ Crop.fill
        ⟨1, "a@b", Role.regular⟩ 7).db.transformed
        = (DB.mk [⟨5, 1, "http://x", "d", [], 0⟩] [] []).transformed ++
            [⟨nextTransformedId ⟨[⟨5, 1, "http://x", "d", [], 0⟩], [], []⟩, 5,
              (fun _ => "https://u.example/t")
                (UploadReq.mk (UploadSource.url (Image.mk 5 1 "http://x" "d" [] 0).link)
                  ("PhotoShare(transformed)/" ++ (User.mk 1 "a@b" Role.regular).email
                    ++ "_" ++ toString 7)
                  (some (Transformation.crop Crop.fill.value
                    (toString (UpdateImageSchema.mk 10 20).width)
                    (toString (UpdateImageSchema.mk 10 20).height))))⟩] ∧
      (use_effect (fun _ => "https://u.example/t")
        ⟨[⟨5, 1, "http://x", "d", [], 0⟩], [], []⟩ 5 Effect.sepia
        ⟨1, "a@b", Role.regular⟩ 7).calls
        = [⟨UploadSource.url (Image.mk 5 1 "http://x" "d" [] 0).link,
            "PhotoShare(transformed)/" ++ (User.mk 1 "a@b" Role.regular).email
              ++ "_" ++ toString 7,
            some (Transformation.effect ("art:" ++ Effect.sepia.value))⟩] ∧
      (use_effect (fun _ => "https://u.example/t")
        ⟨[⟨5, 1, "http://x", "d", [], 0⟩], [], []⟩ 5 Effect.sepia
        ⟨1, "a@b", Role.regular⟩ 7).db.images
        = (DB.mk [⟨5, 1, "http://x", "d", [], 0⟩] [] []).images ∧
      (use_effect (fun _ => "https://u.example/t")
        ⟨[⟨5, 1, "http://x", "d", [], 0⟩], [], []⟩ 5 Effect.sepia
        ⟨1, "a@b", Role.regular⟩ 7).db.ratings
        = (DB.mk [⟨5, 1, "http://x", "d", [], 0⟩] [] []).ratings ∧
      (use_effect (fun _ => "https://u.example/t")
        ⟨[⟨5, 1, "http://x", "d", [], 0⟩], [], []⟩ 5 Effect.sepia
        ⟨1, "a@b", Role.regular⟩ 7).db.transformed
        = (DB.mk [⟨5, 1, "http://x", "d", [], 0⟩] [] []).transformed ++
            [⟨nextTransformedId ⟨[⟨5, 1, "http://x", "d", [], 0⟩], [], []⟩, 5,
              (fun _ => "https://u.example/t")
                (UploadReq.mk (UploadSource.url (Image.mk 5 1 "http://x" "d" [] 0).link)
                  ("PhotoShare(transformed)/" ++ (User.mk 1 "a@b" Role.regular).email
                    ++ "_" ++ toString 7)
                  (some (Transformation.effect ("art:" ++ Effect.sepia.value))))⟩] :=
  transform_success_frame (fun _ => "https://u.example/t")
    ⟨[⟨5, 1, "http://x", "d", [], 0⟩], [], []⟩ 5 ⟨10, 20⟩ Crop.fill Effect.sepia
    ⟨1, "a@b", Role.regular⟩ 7 ⟨5, 1, "http://x", "d", [], 0⟩ (by decide)

/-- Claim C9: listing another user's images requires the requesting actor's
role to be admin or moderator — a regular actor is denied with the 403
Forbidden — and on success the route returns exactly the Images owned by the
target user. -/
theorem list_for_user_role_gate (db : DB) (user_id : Nat) (u : User) :
    (u.role = Role.regular →
      (get_images_by_user_id_route db user_id u).result
        = Except.error ⟨403, "FORBIDDEN"⟩) ∧
    (u.role = Role.admin ∨ u.role = Role.moderator →
      (get_images_by_user_id_route db user_id u).result
        = Except.ok (db.images.filter (fun img => img.user_id == user_id))) := by
  constructor
  · intro h
    simp [get_images_by_user_id_route, RoleAccess.call, h]
  · intro h
    rcases h with h | h <;>
      simp [get_images_by_user_id_route, RoleAccess.call,
        repository_images.get_images_by_user_id, h]

/-- Claim C9 witness: on a store with images owned by users 2 and 3, a
regular actor is refused with the 403, while an admin listing user 2's
images receives exactly the two images owned by user 2. -/
theorem list_for_user_role_gate_witness :
    ((get_images_by_user_id_route
        ⟨[⟨1, 2, "a", "d", [], 0⟩, ⟨2, 3, "b", "d", [], 0⟩, ⟨3, 2, "c", "d", [], 0⟩], [], []⟩
        2 ⟨1, "r@b", Role.regular⟩).result = Except.error ⟨403, "FORBIDDEN"⟩) ∧
    ((get_images_by_user_id_route
        ⟨[⟨1, 2, "a", "d", [], 0⟩, ⟨2, 3, "b", "d", [], 0⟩, ⟨3, 2, "c", "d", [], 0⟩], [], []⟩
        2 ⟨9, "m@b", Role.admin⟩).result
        = Except.ok ((DB.mk
            [⟨1, 2, "a", "d", [], 0⟩, ⟨2, 3, "b", "d", [], 0⟩, ⟨3, 2, "c", "d", [], 0⟩]
            [] []).images.filter (fun img => img.user_id == 2))) :=
  ⟨(list_for_user_role_gate
      ⟨[⟨1, 2, "a", "d", [], 0⟩, ⟨2, 3, "b", "d", [], 0⟩, ⟨3, 2, "c", "d", [], 0⟩], [], []⟩
      2 ⟨1, "r@b", Role.regular⟩).1 rfl,
   (list_for_user_role_gate
      ⟨[⟨1, 2, "a", "d", [], 0⟩, ⟨2, 3, "b", "d", [], 0⟩, ⟨3, 2, "c", "d", [], 0⟩], [], []⟩
      2 ⟨9, "m@b", Role.admin⟩).2 (Or.inl rfl)⟩

/-- Claim C10: the rating boundary validates the score against the fixed
permitted range — every accepted submission's persisted score lies within
the range, and a submission with an out-of-range score is rejected with the
400 error. -/
theorem rating_range_validated (body : RatingSchema) (u : User) :
    (∀ r, create_rating body u = Except.ok r →
      ratingMin ≤ r.rating ∧ r.rating ≤ ratingMax) ∧
    (body.rating < ratingMin ∨ ratingMax < body.rating →
      create_rating body u
        = Except.error ⟨400, "Rating must be between 1 and 5"⟩) := by
  constructor
  · intro r hr
    unfold create_rating at hr
    by_cases hc : (body.rating < ratingMin || ratingMax < body.rating : Bool) = true
    · rw [if_pos hc] at hr
      exact absurd hr (by simp)
    · rw [if_neg hc] at hr
      injection hr with hr
      subst hr
      simp only [Bool.or_eq_true, decide_eq_true_eq, not_or] at hc
      exact ⟨Int.not_lt.mp hc.1, Int.not_lt.mp hc.2⟩
  · intro h
    unfold create_rating
    rcases h with h | h <;> simp [h]

/-- Claim C10 witness: a submitted score of 3 is accepted and lies in the
range, and a submitted score of 9 is rejected with the 400 error. -/
theorem rating_range_validated_witness :
    (ratingMin ≤ (Rating.mk 1 4 3).rating ∧ (Rating.mk 1 4 3).rating ≤ ratingMax) ∧
    (create_rating ⟨4, 9⟩ ⟨1, "a@b", Role.regular⟩
      = Except.error ⟨400, "Rating must be between 1 and 5"⟩) :=
  ⟨(rating_range_validated ⟨4, 3⟩ ⟨1, "a@b", Role.regular⟩).1 ⟨1, 4, 3⟩ rfl,
   (rating_range_validated ⟨4, 9⟩ ⟨1, "a@b", Role.regular⟩).2 (Or.inr (by decide))⟩

/-- Inserting an element with the descending-key comparison passes only over
elements of strictly larger key, so for every fixed key value the filtered
subsequence gains the new element at the front exactly when it bears that
key, and is untouched otherwise. -/
theorem orderedInsert_filter_key {α : Type} (key : α → Int) (x : α) (k : Int) :
    ∀ m : List α,
      (List.orderedInsert (fun a b => key b ≤ key a) x m).filter
          (fun y => key y == k)
        = if key x == k then x :: m.filter (fun y => key y == k)
          else m.filter (fun y => key y == k)
  | [] => by
    by_cases hxk : key x == k <;> simp [List.orderedInsert, hxk]
  | b :: l => by
    have ih := orderedInsert_filter_key key x k l
    by_cases hr : key b ≤ key x
    · have hins : List.orderedInsert (fun a b => key b ≤ key a) x (b :: l)
          = x :: b :: l := by
        simp [List.orderedInsert, hr]
      rw [hins]
      by_cases hxk : key x == k <;> simp [List.filter_cons, hxk]
    · have hins : List.orderedInsert (fun a b => key b ≤ key a) x (b :: l)
          = b :: List.orderedInsert (fun a b => key b ≤ key a) x l := by
        simp [List.orderedInsert, hr]
      rw [hins]
      by_cases hxk : key x == k
      · have hbk : (key b == k) = false := by
          have hlt := lt_of_not_le hr
          have hxk2 : key x = k := by simpa using hxk
          simp only [beq_eq_false_iff_ne, ne_eq]
          omega
        simp [List.filter_cons, hbk, ih, hxk]
      · simp [List.filter_cons, ih, hxk]

/-- For every fixed key value, insertion sort with the descending-key
comparison preserves the input's subsequence of elements bearing that key:
the sort is stable. -/
theorem insertionSort_filter_key {α : Type} (key : α → Int) (k : Int) :
    ∀ l : List α,
      (List.insertionSort (fun a b => key b ≤ key a) l).filter
          (fun y => key y == k)
        = l.filter (fun y => key y == k)
  | [] => rfl
  | x :: l => by
    have ih := insertionSort_filter_key key k l
    simp only [List.insertionSort]
    rw [orderedInsert_filter_key key x k]
    by_cases hxk : key x == k <;> simp [List.filter_cons, hxk, ih]

/-- Insertion sort with the descending-key comparison yields a list that is
pairwise non-increasing in the key. -/
theorem insertionSort_desc_sorted {α : Type} (key : α → Int) (l : List α) :
    (List.insertionSort (fun a b => key b ≤ key a) l).Pairwise
      (fun a b => key b ≤ key a) := by
  haveI : IsTotal α (fun a b => key b ≤ key a) :=
    ⟨fun a b => le_total (key b) (key a)⟩
  haveI : IsTrans α (fun a b => key b ≤ key a) :=
    ⟨fun _ _ _ hab hbc => le_trans hbc hab⟩
  exact List.sorted_insertionSort _ l

/-- The sorter returns a permutation of its input for every key and
direction. -/
theorem sorter_perm (db : DB) (l : List Image) (ob : SortBy) (desc : Bool) :
    (repository_images.sorter db l ob desc).Perm l := by
  cases desc <;> simp [repository_images.sorter] <;>
    exact List.perm_insertionSort _ l

/-- Claim C7: sorting a non-empty list of images by the rating key with
descending set returns a permutation of the input that is non-increasing in
the rating key, and the sort is stable — for every key value, the elements
bearing it keep their relative order from the input list. -/
theorem sorter_rating_desc_correct (db : DB) (l : List Image) (k : Int)
    (h : l ≠ []) :
    (repository_images.sorter db l SortBy.rating true).Perm l ∧
      (repository_images.sorter db l SortBy.rating true).Pairwise
        (fun a b => repository_images.sortKey db SortBy.rating b
          ≤ repository_images.sortKey db SortBy.rating a) ∧
      (repository_images.sorter db l SortBy.rating true).filter
          (fun y => repository_images.sortKey db SortBy.rating y == k)
        = l.filter
            (fun y => repository_images.sortKey db SortBy.rating y == k) := by
  refine ⟨sorter_perm db l SortBy.rating true, ?_, ?_⟩
  · simpa [repository_images.sorter] using
      insertionSort_desc_sorted (repository_images.sortKey db SortBy.rating) l
  · simpa [repository_images.sorter] using
      insertionSort_filter_key (repository_images.sortKey db SortBy.rating) k l

/-- Claim C7 witness: on a store whose ratings give images 1 and 2 the same
aggregate score 5 and image 3 the score 7, sorting the non-empty list
[1, 2, 3] by rating descending yields a permutation in non-increasing order
in which the tied images 1 and 2 keep their original relative order. -/
theorem sorter_rating_desc_correct_witness :
    (repository_images.sorter ⟨[], [], [⟨1, 1, 5⟩, ⟨1, 2, 5⟩, ⟨1, 3, 7⟩]⟩
        [⟨1, 1, "a", "d", [], 0⟩, ⟨2, 1, "b", "d", [], 0⟩, ⟨3, 1, "c", "d", [], 0⟩]
        SortBy.rating true).Perm
        [⟨1, 1, "a", "d", [], 0⟩, ⟨2, 1, "b", "d", [], 0⟩, ⟨3, 1, "c", "d", [], 0⟩] ∧
      (repository_images.sorter ⟨[], [], [⟨1, 1, 5⟩, ⟨1, 2, 5⟩, ⟨1, 3, 7⟩]⟩
        [⟨1, 1, "a", "d", [], 0⟩, ⟨2, 1, "b", "d", [], 0⟩, ⟨3, 1, "c", "d", [], 0⟩]
        SortBy.rating true).Pairwise
        (fun a b =>
          repository_images.sortKey ⟨[], [], [⟨1, 1, 5⟩, ⟨1, 2, 5⟩, ⟨1, 3, 7⟩]⟩
              SortBy.rating b
            ≤ repository_images.sortKey ⟨[], [], [⟨1, 1, 5⟩, ⟨1, 2, 5⟩, ⟨1, 3, 7⟩]⟩
              SortBy.rating a) ∧
      (repository_images.sorter ⟨[], [], [⟨1, 1, 5⟩, ⟨1, 2, 5⟩, ⟨1, 3, 7⟩]⟩
        [⟨1, 1, "a", "d", [], 0⟩, ⟨2, 1, "b", "d", [], 0⟩, ⟨3, 1, "c", "d", [], 0⟩]
        SortBy.rating true).filter
        (fun y =>
          repository_images.sortKey ⟨[], [], [⟨1, 1, 5⟩, ⟨1, 2, 5⟩, ⟨1, 3, 7⟩]⟩
            SortBy.rating y == 5)
        = [⟨1, 1, "a", "d", [], 0⟩, ⟨2, 1, "b", "d", [], 0⟩,
            ⟨3, 1, "c", "d", [], 0⟩].filter
            (fun y =>
              repository_images.sortKey ⟨[], [], [⟨1, 1, 5⟩, ⟨1, 2, 5⟩, ⟨1, 3, 7⟩]⟩
                SortBy.rating y == 5) :=
  sorter_rating_desc_correct ⟨[], [], [⟨1, 1, 5⟩, ⟨1, 2, 5⟩, ⟨1, 3, 7⟩]⟩
    [⟨1, 1, "a", "d", [], 0⟩, ⟨2, 1, "b", "d", [], 0⟩, ⟨3, 1, "c", "d", [], 0⟩]
    5 (by decide)

/-- Claim C6: a search query shorter than 2 characters is rejected with a
422 validation error; a query of length at least 2 that matches no image's
description or tags fails with the 404; and a query matching at least one
image succeeds, returning a (sorted) permutation of exactly the matching
images. -/
theorem search_contract (db : DB) (order_by : SortBy) (descending : Bool)
    (q : String) (u : User) (img : Image) :
    (q.length < 2 →
      (search_images db order_by descending q u).result
        = Except.error ⟨422, "String should have at least 2 characters"⟩) ∧
    (2 ≤ q.length →
      (∀ i ∈ db.images, repository_images.matchesQuery q i = false) →
      (search_images db order_by descending q u).result
        = Except.error ⟨404, "Images with this query not found"⟩) ∧
    (2 ≤ q.length → img ∈ db.images →
      repository_images.matchesQuery q img = true →
      (search_images db order_by descending q u).result
        = Except.ok (repository_images.sorter db
            (db.images.filter (repository_images.matchesQuery q)) order_by
            descending) ∧
      (repository_images.sorter db
          (db.images.filter (repository_images.matchesQuery q)) order_by
          descending).Perm
        (db.images.filter (repository_images.matchesQuery q))) := by
  refine ⟨?_, ?_, ?_⟩
  · intro h
    simp [search_images, h]
  · intro hlen hall
    have hnil : db.images.filter (repository_images.matchesQuery q) = [] := by
      rw [List.filter_eq_nil]
      intro a ha
      simp [hall a ha]
    simp [search_images, Nat.not_lt.mpr hlen,
      repository_images.search_images_by_description_or_tag, hnil]
  · intro hlen hmem hmatch
    have hne : db.images.filter (repository_images.matchesQuery q) ≠ [] := by
      intro hnil
      have : img ∈ db.images.filter (repository_images.matchesQuery q) :=
        List.mem_filter.mpr ⟨hmem, hmatch⟩
      rw [hnil] at this
      exact absurd this (List.not_mem_nil img)
    refine ⟨?_, sorter_perm db _ order_by descending⟩
    have hlen0 :
        ((db.images.filter (repository_images.matchesQuery q)).length == 0)
          = false := by
      simp only [beq_eq_false_iff_ne, ne_eq]
      intro h0
      exact hne (List.eq_nil_of_length_eq_zero h0)
    simp [search_images, Nat.not_lt.mpr hlen,
      repository_images.search_images_by_description_or_tag, hlen0]

/-- Claim C6 witness: on a store with one image described "hello", the query
"a" is rejected as too short, the query "zz" yields the 404, and the query
"he" succeeds with exactly the matching image. -/
theorem search_contract_witness :
    ((search_images ⟨[⟨1, 1, "u", "hello", [], 0⟩], [], []⟩ SortBy.date false
        "a" ⟨1, "a@b", Role.regular⟩).result
        = Except.error ⟨422, "String should have at least 2 characters"⟩) ∧
    ((search_images ⟨[⟨1, 1, "u", "hello", [], 0⟩], [], []⟩ SortBy.date false
        "zz" ⟨1, "a@b", Role.regular⟩).result
        = Except.error ⟨404, "Images with this query not found"⟩) ∧
    ((search_images ⟨[⟨1, 1, "u", "hello", [], 0⟩], [], []⟩ SortBy.date false
        "he" ⟨1, "a@b", Role.regular⟩).result
        = Except.ok (repository_images.sorter
            ⟨[⟨1, 1, "u", "hello", [], 0⟩], [], []⟩
            ((DB.mk [⟨1, 1, "u", "hello", [], 0⟩] [] []).images.filter
              (repository_images.matchesQuery "he")) SortBy.date false) ∧
      (repository_images.sorter ⟨[⟨1, 1, "u", "hello", [], 0⟩], [], []⟩
          ((DB.mk [⟨1, 1, "u", "hello", [], 0⟩] [] []).images.filter
            (repository_images.matchesQuery "he")) SortBy.date false).Perm
        ((DB.mk [⟨1, 1, "u", "hello", [], 0⟩] [] []).images.filter
          (repository_images.matchesQuery "he"))) :=
  ⟨(search_contract ⟨[⟨1, 1, "u", "hello", [], 0⟩], [], []⟩ SortBy.date false
      "a" ⟨1, "a@b", Role.regular⟩ ⟨1, 1, "u", "hello", [], 0⟩).1 (by decide),
   (search_contract ⟨[⟨1, 1, "u", "hello", [], 0⟩], [], []⟩ SortBy.date false
      "zz" ⟨1, "a@b", Role.regular⟩ ⟨1, 1, "u", "hello", [], 0⟩).2.1 (by decide)
      (by decide),
   (search_contract ⟨[⟨1, 1, "u", "hello", [], 0⟩], [], []⟩ SortBy.date false
      "he" ⟨1, "a@b", Role.regular⟩ ⟨1, 1, "u", "hello", [], 0⟩).2.2 (by decide)
      (by decide) (by decide)⟩
